import Mathlib

/-!
Shallow embedding of the GeminiGramAI tool pipeline.

Each stage of the pipeline (prompt enhancement, image synthesis, ASCII-art
fallback, telegram reply) is embedded as a total Lean function.  External
services (the Gemini text-generation call, the Pollinations HTTP fetch) are
modelled by passing their outcome as an explicit argument: `Except String
String` for a text-generation call (error message or returned text), and a
`FetchOutcome` value for the HTTP image fetch.  A `throw` inside a source
`try` block flows to the corresponding `catch` branch of the embedding.
-/

namespace GeminiGram

/-- Whitespace characters removed by JS `String.prototype.trim` (the ASCII
ones; the Unicode spaces never occur in the strings of this development). -/
def isJsWhitespace (c : Char) : Bool :=
  c = ' ' || c = '\t' || c = '\n' || c = '\r' || c = '\x0b' || c = '\x0c'

/-- Model of JS `s.trim()`: leading and trailing whitespace removed. -/
def jsTrim (s : String) : String :=
  String.mk (((s.data.dropWhile isJsWhitespace).reverse.dropWhile isJsWhitespace).reverse)

/-- Model of JS `s.substring(0, n)`: the first `n` characters of `s`. -/
def jsSubstring (s : String) (n : Nat) : String :=
  String.mk (s.data.take n)

/-- Model of JS `s.startsWith(pre)`. -/
def jsStartsWith (s pre : String) : Bool :=
  pre.data.isPrefixOf s.data

/-- Result record of `enhancePrompt` (src/src/mastra/tools/promptEnhancerTool.ts).
The optional `error` field models the JS object field that is present only on
the failure path. -/
structure EnhancementResult where
  success : Bool
  enhancedPrompt : String
  originalPrompt : String
  style : String
  message : String
  error : Option String
deriving DecidableEq, Repr

/-- The deterministic fallback template of the enhancement stage
(promptEnhancerTool.ts line 71). -/
def fallbackPrompt (originalPrompt style : String) : String :=
  originalPrompt ++ ", high quality, detailed, " ++ style ++ " style, professional photography"

/-- Embedding of `enhancePrompt` (promptEnhancerTool.ts lines 11-82).
`response` is the outcome of the single `generateText` call: `.error e` when
the call rejects with message `e`, `.ok text` when it resolves with `text`.
The empty-prompt check throws inside the `try`, so it lands in the same
`catch` branch as an external failure, with its own error message. -/
def enhancePrompt (originalPrompt : String) (style : String := "realistic")
    (response : Except String String) : EnhancementResult :=
  if jsTrim originalPrompt = "" then
    { success := false
      enhancedPrompt := fallbackPrompt originalPrompt style
      originalPrompt := originalPrompt
      style := style
      message := "Prompt enhancement failed, using fallback: Original prompt cannot be empty"
      error := some "Original prompt cannot be empty" }
  else
    match response with
    | .ok text =>
      { success := true
        enhancedPrompt := jsTrim text
        originalPrompt := originalPrompt
        style := style
        message := "Successfully enhanced prompt using Gemini AI"
        error := none }
    | .error e =>
      { success := false
        enhancedPrompt := fallbackPrompt originalPrompt style
        originalPrompt := originalPrompt
        style := style
        message := "Prompt enhancement failed, using fallback: " ++ e
        error := some e }

/-- Result record of `generateAsciiArt` (src/src/mastra/tools/asciiArtFallbackTool.ts). -/
structure AsciiArtResult where
  success : Bool
  asciiArt : String
  description : String
  originalPrompt : String
  message : String
  error : Option String
deriving DecidableEq, Repr

/-- The fixed placeholder art substituted on any failure
(asciiArtFallbackTool.ts lines 192-197).  In the source template literal
`\\` denotes a single backslash. -/
def fallbackArt : String :=
  "\n    ¯\\_(ツ)_/¯\n  Image generation\n   failed, but I\n    tried my best!\n    "

/-- The fixed placeholder description (a template over the prompt) substituted
on any failure (asciiArtFallbackTool.ts line 202). -/
def fallbackDescription (prompt : String) : String :=
  "I wanted to create something for \"" ++ prompt ++
    "\" but encountered an error. Here\x27s a friendly ASCII instead!"

/-- The catch branch of `generateAsciiArt`: both fields replaced by the fixed
placeholders, `error` recording the caught message `e`. -/
def asciiFailure (prompt e : String) : AsciiArtResult :=
  { success := false
    asciiArt := fallbackArt
    description := fallbackDescription prompt
    originalPrompt := prompt
    message := "ASCII art generation failed: " ++ e
    error := some e }

/-- Embedding of `generateAsciiArt` (asciiArtFallbackTool.ts lines 22-94).
`artResponse` and `descResponse` are the outcomes of the two sequential
`generateText` calls.  The source awaits the first call, then the second,
inside one `try`: a rejection of either lands in the single `catch`, so the
second response is never consulted when the first fails. -/
def generateAsciiArt (prompt : String)
    (artResponse descResponse : Except String String) : AsciiArtResult :=
  if jsTrim prompt = "" then
    asciiFailure prompt "Prompt cannot be empty"
  else
    match artResponse with
    | .error e => asciiFailure prompt e
    | .ok artText =>
      match descResponse with
      | .error e => asciiFailure prompt e
      | .ok desc =>
        { success := true
          asciiArt := jsTrim artText
          description := jsTrim desc
          originalPrompt := prompt
          message := "✨ Created ASCII art representation using Gemini AI"
          error := none }

/-! ## Image synthesis stage (src/unnamed/part_001, `generateImage`) -/

/-- UTF-8 byte sequence of a character (each byte as a `Nat < 256`), used to
model how `encodeURIComponent` percent-encodes non-URI characters. -/
def utf8Bytes (c : Char) : List Nat :=
  let n := c.toNat
  if n < 0x80 then [n]
  else if n < 0x800 then [0xC0 + n / 64, 0x80 + n % 64]
  else if n < 0x10000 then [0xE0 + n / 4096, 0x80 + (n / 64) % 64, 0x80 + n % 64]
  else [0xF0 + n / 262144, 0x80 + (n / 4096) % 64, 0x80 + (n / 64) % 64, 0x80 + n % 64]

/-- Upper-case hexadecimal digit for `n < 16`. -/
def hexDigit (n : Nat) : Char :=
  if n < 10 then Char.ofNat (48 + n) else Char.ofNat (55 + n)

/-- Percent-escape of one byte, rendered as a percent sign and two upper-case
hex digits. -/
def percentByte (b : Nat) : String :=
  "%" ++ String.singleton (hexDigit (b / 16)) ++ String.singleton (hexDigit (b % 16))

/-- The `uriUnescaped` set of ECMA-262 `encodeURIComponent`: ASCII letters,
digits, and `- _ . ! ~ * ( )` and the apostrophe. -/
def isUriUnescaped (c : Char) : Bool :=
  c.isAlpha || c.isDigit || c = '-' || c = '_' || c = '.' || c = '!' ||
    c = '~' || c = '*' || c = '(' || c = ')' || c = '\x27'

/-- Model of the JS builtin `encodeURIComponent`: unreserved characters pass
through, every other character is replaced by the percent-escapes of its
UTF-8 bytes. -/
def encodeURIComponent (s : String) : String :=
  s.data.foldl
    (fun acc c =>
      if isUriUnescaped c then acc ++ String.singleton c
      else acc ++ (utf8Bytes c).foldl (fun a b => a ++ percentByte b) "") ""

/-- Character of the standard base64 alphabet at index `n < 64`. -/
def base64Char (n : Nat) : Char :=
  if n < 26 then Char.ofNat (65 + n)
  else if n < 52 then Char.ofNat (97 + (n - 26))
  else if n < 62 then Char.ofNat (48 + (n - 52))
  else if n = 62 then '+' else '/'

/-- Model of `Buffer.from(bytes).toString(base64)`: standard base64 with `=`
padding, over bytes given as `Nat < 256`. -/
def base64Encode : List Nat → String
  | [] => ""
  | [b1] =>
    String.singleton (base64Char (b1 / 4)) ++
      String.singleton (base64Char (b1 % 4 * 16)) ++ "=="
  | [b1, b2] =>
    String.singleton (base64Char (b1 / 4)) ++
      String.singleton (base64Char (b1 % 4 * 16 + b2 / 16)) ++
      String.singleton (base64Char (b2 % 16 * 4)) ++ "="
  | b1 :: b2 :: b3 :: rest =>
    String.singleton (base64Char (b1 / 4)) ++
      String.singleton (base64Char (b1 % 4 * 16 + b2 / 16)) ++
      String.singleton (base64Char (b2 % 16 * 4 + b3 / 64)) ++
      String.singleton (base64Char (b3 % 64)) ++ base64Encode rest

/-- Outcome of the `fetch` of the Pollinations URL, as seen by `generateImage`:
the 30-second timer fired and aborted the call (`timeout`), the fetch rejected
with a network error, or an HTTP response arrived with a status, status text,
declared content type (`none` models a missing/null header) and body bytes. -/
inductive FetchOutcome where
  | timeout
  | networkError (msg : String)
  | response (status : Nat) (statusText : String)
      (contentType : Option String) (body : List Nat)
deriving DecidableEq, Repr

/-- Message of the `DOMException` with which Node's `fetch` rejects when the
`AbortController` fires. -/
def abortErrorMessage : String := "This operation was aborted"

/-- Result record of `generateImage` (src/unnamed/part_001).  `imageBase64`
and `mimeType` are nullable in the source schema; `imageUrl` and `error` are
optional fields present on the success / failure path respectively. -/
structure ImageResult where
  success : Bool
  imageBase64 : Option String
  mimeType : Option String
  message : String
  originalPrompt : String
  imageUrl : Option String
  error : Option String
deriving DecidableEq, Repr

/-- Clamping of a dimension: `Math.min(Math.max(x, 256), 1024)` (part_001
lines 34-35). -/
def clampDim (x : Int) : Int := min (max x 256) 1024

/-- Truncation of over-long prompts: `prompt.substring(0, 500)` when the
length exceeds 500 (part_001 lines 28-31). -/
def truncatePrompt (p : String) : String :=
  if p.length > 500 then jsSubstring p 500 else p

/-- The Pollinations request URL (part_001 lines 38-39): the prompt is trimmed
and URL-encoded; `width` and `height` arrive here already clamped. -/
def requestUrl (prompt : String) (width height : Int) : String :=
  "https://image.pollinations.ai/prompt/" ++ encodeURIComponent (jsTrim prompt) ++
    "?width=" ++ toString width ++ "&height=" ++ toString height ++ "&seed=random"

/-- Model of `response.ok`: HTTP status in the 2xx range. -/
def responseOk (status : Nat) : Bool := 200 ≤ status && status ≤ 299

/-- The catch branch of `generateImage` (part_001 lines 83-97): null image
fields, the caught message recorded in `message` and `error`, no `imageUrl`.
`prompt` here is the source variable at the moment of the throw (already
truncated except for the empty-prompt throw). -/
def imageFailure (prompt e : String) : ImageResult :=
  { success := false
    imageBase64 := none
    mimeType := none
    message := "❌ Image generation failed: " ++ e ++ ". Will try ASCII art fallback."
    originalPrompt := prompt
    imageUrl := none
    error := some e }

/-- Embedding of `generateImage` (part_001 lines 5-98).  `outcome` is the
result of the single `fetch`; the empty-prompt, non-2xx-status and
content-type throws all land in the same `catch`.  A `null` content-type
header prints as the string `null` in the interpolated error message. -/
def generateImage (prompt : String) (width : Int := 1024) (height : Int := 1024)
    (outcome : FetchOutcome) : ImageResult :=
  if jsTrim prompt = "" then
    imageFailure prompt "Prompt cannot be empty"
  else
    let prompt := truncatePrompt prompt
    let width := clampDim width
    let height := clampDim height
    let imageUrl := requestUrl prompt width height
    match outcome with
    | .timeout => imageFailure prompt abortErrorMessage
    | .networkError e => imageFailure prompt e
    | .response status statusText contentType body =>
      if !responseOk status then
        imageFailure prompt
          ("Pollinations API failed: " ++ toString status ++ " " ++ statusText)
      else
        match contentType with
        | none => imageFailure prompt "Invalid content type received: null"
        | some ct =>
          if !(jsStartsWith ct "image/") then
            imageFailure prompt ("Invalid content type received: " ++ ct)
          else
            { success := true
              imageBase64 := some (base64Encode body)
              mimeType := some ct
              message := "✅ Successfully generated image using free AI service for: \"" ++
                prompt ++ "\""
              originalPrompt := prompt
              imageUrl := some imageUrl
              error := none }

/-! ## Telegram reply stage (src/src/mastra/tools/telegramReplyTool.ts) -/

/-- Result record of `sendTelegramMessage`. -/
structure TelegramReplyResult where
  success : Bool
  chatId : String
  messagePreview : String
  sentAt : String
  hasImage : Bool
deriving DecidableEq, Repr

/-- Embedding of `sendTelegramMessage` (telegramReplyTool.ts lines 6-42).
Nothing in the `try` body can throw, so the function always returns the
constructed record.  `now` models `new Date().toISOString()`.  `hasImage` is
the JS double negation `!!imageData`, which is `false` both for an absent
`imageData` and for an empty string (falsy truthiness). -/
def sendTelegramMessage (chatId message : String) (imageData : Option String)
    (now : String) : TelegramReplyResult :=
  { success := true
    chatId := chatId
    messagePreview := jsSubstring message 100 ++ (if message.length > 100 then "..." else "")
    sentAt := now
    hasImage := !(imageData.getD "" == "") }

/-! ## Workflow message parsing (src/unnamed/part_000, `useAgentStep`) -/

/-- JSON values, as produced by `JSON.parse`. -/
inductive Json where
  | null
  | bool (b : Bool)
  | num (n : Int)
  | str (s : String)
  | arr (xs : List Json)
  | obj (fields : List (String × Json))
deriving Repr

/-- Field lookup modelling JS property access on a parsed value: an object
yields its field when present, every other value (or a missing field) yields
`none` (JS `undefined`). -/
def jget (j : Json) (k : String) : Option Json :=
  match j with
  | .obj fields => (fields.find? (fun f => f.1 = k)).map (fun f => f.2)
  | _ => none

/-- Extraction `messageData.message?.chat?.id?.toString() || "unknown"`
(part_000 line 30): a numeric or non-empty string id stringifies; anything missing, null, or
falsy falls back to `"unknown"`. -/
def chatIdOf (j : Json) : String :=
  match (jget j "message").bind (fun m => jget m "chat") |>.bind (fun c => jget c "id") with
  | some (.num n) => toString n
  | some (.str s) => if s = "" then "unknown" else s
  | _ => "unknown"

/-- Extraction `messageData.message?.text || ""` (part_000 line 31): a missing `message`
object or missing/non-string `text` yields the empty prompt. -/
def messageTextOf (j : Json) : String :=
  match (jget j "message").bind (fun m => jget m "text") with
  | some (.str s) => s
  | _ => ""

/-- Embedding of the parsing prologue of `useAgentStep.execute` (part_000
lines 29-31).  `parsed` is the outcome of `JSON.parse(inputData.message)`:
`.error e` when the builtin throws a `SyntaxError` with message `e`.  The
source has no try/catch around the parse, so that exception propagates out of
the step unchanged; a parsed value is destructured totally with defaults. -/
def useAgentParse (parsed : Except String Json) : Except String (String × String) :=
  match parsed with
  | .error e => .error e
  | .ok j => .ok (chatIdOf j, messageTextOf j)

/-! ## General lemmas about the embedding -/

/-- A string append whose left part is non-empty is non-empty. -/
theorem str_append_ne_empty (a b : String) (h : a ≠ "") : a ++ b ≠ "" := by
  intro hc
  apply h
  have hd := congrArg String.data hc
  rw [String.data_append] at hd
  rcases List.append_eq_nil.mp hd with ⟨h1, _⟩
  cases a
  simp_all

/-- Shape of a successful run of the synthesize stage: success is reached only
through a 2xx response whose content type is declared and begins with
`image/`, and then the result carries the encoded body, that content type, and
the request URL over the truncated prompt and clamped dimensions. -/
theorem generateImage_success (p : String) (w h : Int) (o : FetchOutcome)
    (hs : (generateImage p w h o).success = true) :
    ∃ st stx ct body, o = .response st stx (some ct) body ∧
      responseOk st = true ∧ jsStartsWith ct "image/" = true ∧
      generateImage p w h o =
        { success := true
          imageBase64 := some (base64Encode body)
          mimeType := some ct
          message := "✅ Successfully generated image using free AI service for: \"" ++
            truncatePrompt p ++ "\""
          originalPrompt := truncatePrompt p
          imageUrl := some (requestUrl (truncatePrompt p) (clampDim w) (clampDim h))
          error := none } := by
  rcases o with _ | e | ⟨st, stx, ct, body⟩ <;>
    simp only [generateImage, imageFailure] at hs ⊢
  · split at hs <;> simp_all
  · split at hs <;> simp_all
  · split at hs
    · simp_all
    · split at hs
      · simp_all
      · split at hs
        · simp_all
        · split at hs
          · simp_all
          · rename_i htrim hok c heq hsw
            refine ⟨st, stx, heq, body, rfl, by simpa using hok, by simpa using hsw, ?_⟩
            rw [if_neg htrim, if_neg hok, if_neg hsw]

/-- The enhance stage populates `error` exactly on its failure paths. -/
theorem enhance_error_iff_failure (p s : String) (r : Except String String) :
    (enhancePrompt p s r).error.isSome = !(enhancePrompt p s r).success := by
  unfold enhancePrompt
  repeat' split
  all_goals rfl

/-- The synthesize stage populates `error` exactly on its failure paths. -/
theorem image_error_iff_failure (p : String) (w h : Int) (o : FetchOutcome) :
    (generateImage p w h o).error.isSome = !(generateImage p w h o).success := by
  unfold generateImage imageFailure
  repeat' split
  all_goals rfl

/-- The ascii-art stage populates `error` exactly on its failure paths. -/
theorem ascii_error_iff_failure (p : String) (r1 r2 : Except String String) :
    (generateAsciiArt p r1 r2).error.isSome = !(generateAsciiArt p r1 r2).success := by
  unfold generateAsciiArt asciiFailure
  repeat' split
  all_goals rfl

/-- The enhance stage always carries a non-empty human-readable message. -/
theorem enhance_message_ne (p s : String) (r : Except String String) :
    (enhancePrompt p s r).message ≠ "" := by
  unfold enhancePrompt
  repeat' split
  all_goals dsimp only
  all_goals first
    | decide
    | exact str_append_ne_empty _ _ (by decide)

/-- The synthesize stage always carries a non-empty human-readable message. -/
theorem image_message_ne (p : String) (w h : Int) (o : FetchOutcome) :
    (generateImage p w h o).message ≠ "" := by
  unfold generateImage imageFailure
  repeat' split
  all_goals dsimp only
  all_goals first
    | decide
    | exact str_append_ne_empty _ _ (by decide)
    | exact str_append_ne_empty _ _ (str_append_ne_empty _ _ (by decide))

/-- The ascii-art stage always carries a non-empty human-readable message. -/
theorem ascii_message_ne (p : String) (r1 r2 : Except String String) :
    (generateAsciiArt p r1 r2).message ≠ "" := by
  unfold generateAsciiArt asciiFailure
  repeat' split
  all_goals dsimp only
  all_goals first
    | decide
    | exact str_append_ne_empty _ _ (by decide)

/-! ## Claim theorems -/

/-- C1: for every prompt whose trimmed form is empty, each of the three stages
(enhance, synthesize, ascii-art fallback) returns `success = false`, and
performs no external call: its result does not depend on the modelled external
outcome. -/
theorem emptyPrompt_rejected_no_external_call
    (p s : String) (r r' a1 d1 a2 d2 : Except String String)
    (w h : Int) (o o' : FetchOutcome)
    (hp : jsTrim p = "") :
    enhancePrompt p s r = enhancePrompt p s r' ∧
    (enhancePrompt p s r).success = false ∧
    generateImage p w h o = generateImage p w h o' ∧
    (generateImage p w h o).success = false ∧
    generateAsciiArt p a1 d1 = generateAsciiArt p a2 d2 ∧
    (generateAsciiArt p a1 d1).success = false := by
  simp [enhancePrompt, generateImage, generateAsciiArt, asciiFailure, imageFailure, hp]

/-- Witness for C1 at the whitespace-only prompt. -/
theorem emptyPrompt_rejected_no_external_call_witness :
    jsTrim "   " = "" ∧
    (enhancePrompt "   " "realistic" (.ok "nice")).success = false ∧
    (generateImage "   " 1024 1024 (.response 200 "OK" (some "image/png") [7])).success = false ∧
    (generateAsciiArt "   " (.ok "art") (.ok "desc")).success = false := by
  have h := emptyPrompt_rejected_no_external_call "   " "realistic" (.ok "nice") (.error "e")
    (.ok "art") (.ok "desc") (.error "e1") (.error "e2") 1024 1024
    (.response 200 "OK" (some "image/png") [7]) .timeout (by decide)
  exact ⟨by decide, h.2.1, h.2.2.2.1, h.2.2.2.2.2⟩

/-- C2: atomicity of the ascii-art fallback stage: if either of the two
external calls fails, both `asciiArt` and `description` are the fixed
placeholder values — never a mix — with `success = false`, and (whenever the
calls were actually issued, i.e. the prompt is non-blank) `error` records the
underlying failure message. -/
theorem asciiFallback_atomic_placeholders
    (p e : String) (r1 r2 : Except String String)
    (hfail : r1 = .error e ∨ (∃ t, r1 = .ok t) ∧ r2 = .error e) :
    (generateAsciiArt p r1 r2).asciiArt = fallbackArt ∧
    (generateAsciiArt p r1 r2).description = fallbackDescription p ∧
    (generateAsciiArt p r1 r2).success = false ∧
    (jsTrim p ≠ "" → (generateAsciiArt p r1 r2).error = some e) := by
  rcases hfail with h1 | ⟨⟨t, ht⟩, h2⟩
  · subst h1
    by_cases hp : jsTrim p = "" <;>
      simp [generateAsciiArt, asciiFailure, hp]
  · subst ht; subst h2
    by_cases hp : jsTrim p = "" <;>
      simp [generateAsciiArt, asciiFailure, hp]

/-- Witness for C2: the first call succeeds, the second fails. -/
theorem asciiFallback_atomic_placeholders_witness :
    (generateAsciiArt "cat" (.ok "art") (.error "boom")).asciiArt = fallbackArt ∧
    (generateAsciiArt "cat" (.ok "art") (.error "boom")).description = fallbackDescription "cat" ∧
    (generateAsciiArt "cat" (.ok "art") (.error "boom")).success = false ∧
    (generateAsciiArt "cat" (.ok "art") (.error "boom")).error = some "boom" := by
  have h := asciiFallback_atomic_placeholders "cat" "boom" (.ok "art") (.error "boom")
    (Or.inr ⟨⟨"art", rfl⟩, rfl⟩)
  exact ⟨h.1, h.2.1, h.2.2.1, h.2.2.2 (by decide)⟩

/-- C3 counterexample: an external call that succeeds with whitespace-only
text yields `success = true` and an empty `enhancedPrompt`, refuting the
claimed unconditional non-emptiness of `enhancedPrompt`. -/
theorem enhance_empty_enhancedPrompt_cex :
    (enhancePrompt "cat" "realistic" (.ok "   ")).success = true ∧
    (enhancePrompt "cat" "realistic" (.ok "   ")).enhancedPrompt = "" := by
  decide

/-- C3 (amended): on any external-call failure the enhance stage returns
`success = false` with the deterministic template as `enhancedPrompt` and the
failure recorded in `error`; on a successful call it returns `success = true`
with the trimmed response text, which may be empty for a whitespace-only
response. -/
theorem enhance_fallback_template
    (p s t e : String) (hp : jsTrim p ≠ "") :
    (enhancePrompt p s (.error e)).success = false ∧
    (enhancePrompt p s (.error e)).enhancedPrompt = fallbackPrompt p s ∧
    (enhancePrompt p s (.error e)).error = some e ∧
    (enhancePrompt p s (.ok t)).success = true ∧
    (enhancePrompt p s (.ok t)).enhancedPrompt = jsTrim t := by
  simp [enhancePrompt, hp]

/-- Witness for C3 (amended) at a concrete failing call. -/
theorem enhance_fallback_template_witness :
    (enhancePrompt "cat" "realistic" (.error "boom")).success = false ∧
    (enhancePrompt "cat" "realistic" (.error "boom")).enhancedPrompt =
      fallbackPrompt "cat" "realistic" ∧
    (enhancePrompt "cat" "realistic" (.error "boom")).error = some "boom" := by
  have h := enhance_fallback_template "cat" "realistic" "nice" "boom" (by decide)
  exact ⟨h.1, h.2.1, h.2.2.1⟩

/-- C4: whenever the synthesize stage reports `success = true`, both
`imageBase64` and `mimeType` are present and the mime type begins with
`image/`. -/
theorem imageSuccess_fields_present
    (p : String) (w h : Int) (o : FetchOutcome)
    (hs : (generateImage p w h o).success = true) :
    ∃ b m, (generateImage p w h o).imageBase64 = some b ∧
      (generateImage p w h o).mimeType = some m ∧
      jsStartsWith m "image/" = true := by
  obtain ⟨st, stx, ct, body, _, _, hsw, heq⟩ := generateImage_success p w h o hs
  exact ⟨base64Encode body, ct, by rw [heq], by rw [heq], hsw⟩

/-- Witness for C4 at a concrete successful fetch. -/
theorem imageSuccess_fields_present_witness :
    (generateImage "cat" 1024 1024 (.response 200 "OK" (some "image/png") [1, 2, 3])).success
      = true ∧
    ∃ b m,
      (generateImage "cat" 1024 1024
          (.response 200 "OK" (some "image/png") [1, 2, 3])).imageBase64 = some b ∧
      (generateImage "cat" 1024 1024
          (.response 200 "OK" (some "image/png") [1, 2, 3])).mimeType = some m ∧
      jsStartsWith m "image/" = true :=
  ⟨by decide,
    imageSuccess_fields_present "cat" 1024 1024
      (.response 200 "OK" (some "image/png") [1, 2, 3]) (by decide)⟩

/-- C5: no stage throws to its caller: for every input and every external
outcome, each of the three stages returns a typed result (totality of the
embedding) carrying a success flag, a non-empty human-readable message, and a
populated machine-readable `error` whenever it failed. -/
theorem stages_always_return_typed_result
    (p s : String) (r r1 r2 : Except String String) (w h : Int) (o : FetchOutcome) :
    (enhancePrompt p s r).message ≠ "" ∧
    ((enhancePrompt p s r).success = false → (enhancePrompt p s r).error.isSome = true) ∧
    (generateImage p w h o).message ≠ "" ∧
    ((generateImage p w h o).success = false → (generateImage p w h o).error.isSome = true) ∧
    (generateAsciiArt p r1 r2).message ≠ "" ∧
    ((generateAsciiArt p r1 r2).success = false →
      (generateAsciiArt p r1 r2).error.isSome = true) := by
  refine ⟨enhance_message_ne p s r, fun hf => ?_, image_message_ne p w h o, fun hf => ?_,
    ascii_message_ne p r1 r2, fun hf => ?_⟩
  · rw [enhance_error_iff_failure, hf]; rfl
  · rw [image_error_iff_failure, hf]; rfl
  · rw [ascii_error_iff_failure, hf]; rfl

/-- Witness for C5 at concrete failing runs of each stage. -/
theorem stages_always_return_typed_result_witness :
    (enhancePrompt "cat" "realistic" (.error "x")).error.isSome = true ∧
    (generateImage "cat" 1024 1024 .timeout).error.isSome = true ∧
    (generateAsciiArt "cat" (.error "y") (.ok "d")).error.isSome = true := by
  have h := stages_always_return_typed_result "cat" "realistic" (.error "x") (.error "y")
    (.ok "d") 1024 1024 .timeout
  exact ⟨h.2.1 (by decide), h.2.2.2.1 (by decide), h.2.2.2.2.2 (by decide)⟩

/-- C6 (code bug): the workflow step parses the inbound envelope with
`JSON.parse` outside any try/catch, so an unparsable envelope makes the
exception escape the step instead of being treated as an empty prompt; a
parsable envelope missing `message.text` does degrade to the empty prompt
(and a missing chat id to `unknown`). -/
theorem useAgentParse_behavior :
    useAgentParse (.error "Unexpected token") = .error "Unexpected token" ∧
    useAgentParse (.ok (Json.obj [])) = .ok ("unknown", "") ∧
    useAgentParse
        (.ok (Json.obj [("message", Json.obj [("chat", Json.obj [("id", Json.num 42)])])])) =
      .ok ("42", "") := by
  refine ⟨rfl, rfl, rfl⟩

/-- C7: on a non-2xx status, an undeclared or non-image content type, or the
30-second timeout aborting the in-flight call, the synthesize stage reports
`success = false` with the specific reason in `error` instead of image
data. -/
theorem image_failure_reasons
    (p stx c : String) (w h : Int) (st : Nat) (ct : Option String) (body : List Nat)
    (hp : jsTrim p ≠ "") :
    ((generateImage p w h .timeout).success = false ∧
      (generateImage p w h .timeout).error = some abortErrorMessage ∧
      (generateImage p w h .timeout).imageBase64 = none) ∧
    (responseOk st = false →
      (generateImage p w h (.response st stx ct body)).success = false ∧
      (generateImage p w h (.response st stx ct body)).error =
        some ("Pollinations API failed: " ++ toString st ++ " " ++ stx) ∧
      (generateImage p w h (.response st stx ct body)).imageBase64 = none) ∧
    (responseOk st = true → jsStartsWith c "image/" = false →
      (generateImage p w h (.response st stx (some c) body)).success = false ∧
      (generateImage p w h (.response st stx (some c) body)).error =
        some ("Invalid content type received: " ++ c) ∧
      (generateImage p w h (.response st stx (some c) body)).imageBase64 = none) ∧
    (responseOk st = true →
      (generateImage p w h (.response st stx none body)).success = false ∧
      (generateImage p w h (.response st stx none body)).error =
        some "Invalid content type received: null" ∧
      (generateImage p w h (.response st stx none body)).imageBase64 = none) := by
  refine ⟨?_, fun hok => ?_, fun hok hsw => ?_, fun hok => ?_⟩
  · simp [generateImage, imageFailure, hp]
  · simp [generateImage, imageFailure, hp, hok]
  · simp [generateImage, imageFailure, hp, hok, hsw]
  · simp [generateImage, imageFailure, hp, hok]

/-- Witness for C7: timeout, HTTP 503, and an HTML content type. -/
theorem image_failure_reasons_witness :
    (generateImage "cat" 1024 1024 .timeout).error = some abortErrorMessage ∧
    (generateImage "cat" 1024 1024
        (.response 503 "Service Unavailable" (some "text/html") [])).error =
      some ("Pollinations API failed: " ++ toString 503 ++ " " ++ "Service Unavailable") ∧
    (generateImage "cat" 1024 1024 (.response 200 "OK" (some "text/html") [])).error =
      some ("Invalid content type received: " ++ "text/html") := by
  have h1 := image_failure_reasons "cat" "Service Unavailable" "text/html" 1024 1024 503
    (some "text/html") [] (by decide)
  have h2 := image_failure_reasons "cat" "OK" "text/html" 1024 1024 200
    (some "text/html") [] (by decide)
  exact ⟨h1.1.2.1, (h1.2.1 (by decide)).2.1, (h2.2.2.1 (by decide) (by decide)).2.1⟩

/-- C8: the dimensions used in the outbound request URL are the clamped ones,
the clamp lands in `[256, 1024]`, and clamping is monotone. -/
theorem dimensions_clamped_monotone
    (x y w h : Int) (p : String) (o : FetchOutcome) :
    256 ≤ clampDim x ∧ clampDim x ≤ 1024 ∧
    (x ≤ y → clampDim x ≤ clampDim y) ∧
    ((generateImage p w h o).success = true →
      (generateImage p w h o).imageUrl =
        some (requestUrl (truncatePrompt p) (clampDim w) (clampDim h))) := by
  refine ⟨?_, ?_, fun hxy => ?_, fun hs => ?_⟩
  · exact le_min (le_max_right x 256) (by norm_num)
  · exact min_le_right _ _
  · exact min_le_min (max_le_max hxy le_rfl) le_rfl
  · obtain ⟨st, stx, ct, body, _, _, _, heq⟩ := generateImage_success p w h o hs
    rw [heq]

/-- Witness for C8 at concrete out-of-range dimensions and a successful run. -/
theorem dimensions_clamped_monotone_witness :
    256 ≤ clampDim 100 ∧ clampDim 100 ≤ 1024 ∧ clampDim 100 ≤ clampDim 5000 ∧
    (generateImage "cat" 100 5000 (.response 200 "OK" (some "image/png") [])).imageUrl =
      some (requestUrl (truncatePrompt "cat") (clampDim 100) (clampDim 5000)) := by
  have h := dimensions_clamped_monotone 100 5000 100 5000 "cat"
    (.response 200 "OK" (some "image/png") [])
  exact ⟨h.1, h.2.1, h.2.2.1 (by norm_num), h.2.2.2 (by decide)⟩

set_option maxRecDepth 100000 in
/-- C9 counterexample: for an input of 501 characters whose 500th character is
a space, the request URL embeds the URL-encoding of the trimmed truncation
(499 characters), not of the exact first 500 characters — so the URL-embedded
prompt is not the input truncated to exactly its first 500 characters. -/
theorem prompt_truncation_url_cex :
    (String.mk (List.replicate 499 'a') ++ " b").length > 500 ∧
    (generateImage (String.mk (List.replicate 499 'a') ++ " b") 1024 1024
        (.response 200 "OK" (some "image/png") [])).imageUrl =
      some ("https://image.pollinations.ai/prompt/" ++ String.mk (List.replicate 499 'a') ++
        "?width=1024&height=1024&seed=random") ∧
    encodeURIComponent (jsSubstring (String.mk (List.replicate 499 'a') ++ " b") 500) ≠
      String.mk (List.replicate 499 'a') := by
  refine ⟨by decide, by decide, by decide⟩

/-- C9 (amended): for prompts longer than 500 characters (and not blank), the
prompt used for synthesis is the input truncated to exactly its first 500
characters, and the request URL embeds the URL-encoding of that truncated
prompt after whitespace trimming. -/
theorem prompt_truncation_amended
    (p : String) (w h : Int) (o : FetchOutcome)
    (hlong : p.length > 500) (hp : jsTrim p ≠ "") :
    (generateImage p w h o).originalPrompt = jsSubstring p 500 ∧
    ((generateImage p w h o).success = true →
      (generateImage p w h o).imageUrl =
        some ("https://image.pollinations.ai/prompt/" ++
          encodeURIComponent (jsTrim (jsSubstring p 500)) ++
          "?width=" ++ toString (clampDim w) ++ "&height=" ++ toString (clampDim h) ++
          "&seed=random")) := by
  have htr : truncatePrompt p = jsSubstring p 500 := by
    unfold truncatePrompt
    rw [if_pos hlong]
  constructor
  · unfold generateImage
    rw [if_neg hp]
    rcases o with _ | e | ⟨st, stx, ct, body⟩
    · simpa [imageFailure] using htr
    · simpa [imageFailure] using htr
    · repeat' split
      all_goals simp [imageFailure, htr]
  · intro hs
    obtain ⟨st, stx, ct, body, _, _, _, heq⟩ := generateImage_success p w h o hs
    rw [heq, htr]
    rfl

set_option maxRecDepth 100000 in
/-- Witness for C9 (amended) at a 501-character prompt. -/
theorem prompt_truncation_amended_witness :
    (generateImage (String.mk (List.replicate 501 'a')) 1024 1024
        (.response 200 "OK" (some "image/png") [])).originalPrompt =
      jsSubstring (String.mk (List.replicate 501 'a')) 500 :=
  (prompt_truncation_amended (String.mk (List.replicate 501 'a')) 1024 1024
    (.response 200 "OK" (some "image/png") []) (by decide) (by decide)).1

/-- C10 counterexample: a supplied but empty `imageData` string is falsy in
JS, so `hasImage` is `false` even though `imageData` was supplied — refuting
that `hasImage` is true exactly when `imageData` was supplied. -/
theorem telegram_hasImage_cex :
    (some "" : Option String).isSome = true ∧
    (sendTelegramMessage "123" "hello" (some "") "2026-10-12T00:00:00.000Z").hasImage
      = false := by
  decide

/-- C10 (amended): the telegram-reply stage always reports `success = true`,
and `hasImage` is true exactly when a non-empty `imageData` string was
supplied. -/
theorem telegram_reply_always_succeeds
    (chatId message now : String) (imageData : Option String) :
    (sendTelegramMessage chatId message imageData now).success = true ∧
    ((sendTelegramMessage chatId message imageData now).hasImage = true ↔
      ∃ srcData, imageData = some srcData ∧ srcData ≠ "") := by
  refine ⟨rfl, ?_⟩
  rcases imageData with _ | srcData
  · simp [sendTelegramMessage]
  · simp [sendTelegramMessage]

end GeminiGram
